import Mathlib

/-!
Verification development for the auction monitoring engine of the
value-deliver/auction repository.  The definitions below are shallow
embeddings of the Python source (src/auction_monitor/monitor_simple.py,
the Copart variant, and src/experiments/auction_monitor/iaai_monitor.py,
the IAAI variant).  Browser-driver calls (Playwright locator probes,
script evaluation, console messages) are modelled as oracle inputs;
driver exceptions that the Python code catches are modelled as explicit
error results that the embedded functions absorb, so the embedded
functions are total exactly where the Python never lets an exception
escape.
-/

/-! ## Python-style string helpers (character-level, matching Python str semantics) -/

/-- Does the list start with the given leading segment (Python str.startswith over chars). -/
def leadsWith : List Char → List Char → Bool
  | [], _ => true
  | _ :: _, [] => false
  | a :: as, b :: bs => a = b && leadsWith as bs

/-- Does sub occur as a contiguous segment of l (Python membership test sub in l). -/
def occursIn (sub : List Char) (l : List Char) : Bool :=
  match l with
  | [] => leadsWith sub []
  | _ :: cs => leadsWith sub l || occursIn sub cs

/-- Python text.startswith(pre). -/
def pyStartsWith (s pre : String) : Bool := leadsWith pre.data s.data

/-- Python text[n:] (drop the first n characters). -/
def pyDrop (s : String) (n : Nat) : String := String.mk (s.data.drop n)

/-- Python s.lower(). -/
def pyLower (s : String) : String := String.mk (s.data.map Char.toLower)

/-- Python sub in s (substring containment). -/
def pyContains (s sub : String) : Bool := occursIn sub.data s.data

/-- Python s.strip(): remove leading and trailing whitespace. -/
def pyStrip (s : String) : String :=
  String.mk (((s.data.dropWhile Char.isWhitespace).reverse.dropWhile Char.isWhitespace).reverse)

/-- Index of the first occurrence of sep in l, if any. -/
def findSub (sep : List Char) : List Char → Option Nat
  | [] => if leadsWith sep [] then some 0 else none
  | c :: cs => if leadsWith sep (c :: cs) then some 0 else (findSub sep cs).map (· + 1)

/-- The segment of l that follows the first occurrence of sep (none if sep does not occur). -/
def afterFirst (sep l : List Char) : Option (List Char) :=
  match findSub sep l with
  | none => none
  | some i => some (l.drop (i + sep.length))

/-- The segment of l before the first occurrence of sep (all of l if sep does not occur). -/
def upToFirst (sep l : List Char) : List Char :=
  match findSub sep l with
  | none => l
  | some i => l.take i

/-- The first maximal run of decimal digits in the character list, if any:
the semantics of the first match of the Python regexes findall(d+) and search(d+). -/
def firstDigitRun : List Char → Option (List Char)
  | [] => none
  | c :: cs => if c.isDigit then some (c :: cs.takeWhile Char.isDigit) else firstDigitRun cs

/-- Decimal value of a digit run (Python int applied to a digit string). -/
def digitsToNat (l : List Char) : Nat := l.foldl (fun n c => n * 10 + (c.toNat - 48)) 0

/-! ## Snapshot dictionary model

The canonical auction snapshot in the source is a Python dict from string
keys to values that are strings, ints, or None.  We model it as an
insertion-ordered association list with Python dict assignment semantics
(replace in place if the key exists, append otherwise). -/

/-- A value stored in a snapshot field: Python str, int, or None. -/
inductive FieldVal where
  | str (s : String)
  | int (n : Int)
  | none
deriving DecidableEq, Repr

/-- The canonical snapshot dict: insertion-ordered key/value pairs. -/
abbrev Snapshot := List (String × FieldVal)

/-- Python dict assignment d[k] = v: replace in place, else append. -/
def dictSet : Snapshot → String → FieldVal → Snapshot
  | [], k, v => [(k, v)]
  | (k', v') :: rest, k, v =>
      if k' = k then (k, v) :: rest else (k', v') :: dictSet rest k v

/-- Lookup of a key in the snapshot dict. -/
def dictFind : Snapshot → String → Option FieldVal
  | [], _ => .none
  | (k', v) :: rest, k => if k' = k then some v else dictFind rest k

/-- Python d.get(k, dflt). -/
def dictGetD (d : Snapshot) (k : String) (dflt : FieldVal) : FieldVal :=
  match dictFind d k with
  | some v => v
  | Option.none => dflt

/-- Python d.update(kvs): field-wise assignment of every pair in order. -/
def dictUpdate (d : Snapshot) (kvs : List (String × FieldVal)) : Snapshot :=
  kvs.foldl (fun acc kv => dictSet acc kv.1 kv.2) d

/-- Conditional assignment: store the value when the extraction produced one,
leave the dict unchanged otherwise.  This is the shape of every per-field
store in extract_auction_data. -/
def setIfSome (d : Snapshot) (k : String) (v : Option FieldVal) : Snapshot :=
  match v with
  | some v => dictSet d k v
  | Option.none => d

/-! ## Decoded JSON values (payloads of the instrumentation log lines)

json.loads of the instrumentation payloads produces flat objects whose
values are strings, numbers, or null; Python dict.get distinguishes an
absent key (default is used) from a null value (None is returned). -/

/-- A decoded JSON value as produced by json.loads on the instrumentation payloads. -/
inductive JVal where
  | s (v : String)
  | int (n : Int)
  | null
deriving DecidableEq, Repr

/-- A decoded flat JSON object. -/
abbrev JObj := List (String × JVal)

/-- Lookup of a key in a decoded JSON object. -/
def jlookup : JObj → String → Option JVal
  | [], _ => .none
  | (k', v) :: rest, k => if k' = k then some v else jlookup rest k

/-- The Python value a decoded JSON value becomes when stored into the snapshot dict. -/
def jvalToField : JVal → FieldVal
  | .s v => .str v
  | .int n => .int n
  | .null => .none

/-- Python bid_data.get(k, dflt) on a decoded JSON object. -/
def jget (o : JObj) (k : String) (dflt : FieldVal) : FieldVal :=
  match jlookup o k with
  | some v => jvalToField v
  | Option.none => dflt

/-! ## Selector probe results

Each candidate selector probe in the source is the pair
locator(sel).first followed by is_visible(timeout); reading text or an
attribute follows on visibility.  A probe can raise (the per-candidate
try/except absorbs it), report the element not visible, or report it
visible with its text content and, where the code reads one, a named
attribute value (None when the attribute is absent). -/

/-- Outcome of probing one candidate selector. -/
inductive ProbeResult where
  | err
  | notVisible
  | visible (text : String) (attr : Option String)
deriving DecidableEq, Repr

/-- Python falsy-or fallback: attr if truthy else text
(title_text = get_attribute; if not title_text: title_text = text_content). -/
def pyOrText (attr : Option String) (text : String) : String :=
  match attr with
  | some a => if a = "" then text else a
  | Option.none => text

/-! ## Copart field extraction (AuctionMonitor._extract_auction_data and helpers)

Each candidate loop below embeds one for-loop over a selector list from
the source, with the exact store/break structure of that loop. -/

/-- Lot title candidate loop (title_selectors in _extract_lot_details_from_main_page):
on a visible candidate, read the title attribute, falling back to the text
content; store the stripped value and stop only when it is non-empty. -/
def extract_lot_title_loop : List ProbeResult → Option String
  | [] => Option.none
  | ProbeResult.visible t a :: rest =>
      let v := pyOrText a t
      if pyStrip v = "" then extract_lot_title_loop rest else some (pyStrip v)
  | _ :: rest => extract_lot_title_loop rest

/-- Lot number candidate loop (lot_number_selectors): on a visible candidate,
search the stripped text for the first digit run; store it and stop only
when one exists. -/
def extract_lot_number_loop : List ProbeResult → Option String
  | [] => Option.none
  | ProbeResult.visible t _ :: rest =>
      (match firstDigitRun (pyStrip t).data with
       | some l => some (String.mk l)
       | Option.none => extract_lot_number_loop rest)
  | _ :: rest => extract_lot_number_loop rest

/-- Time-remaining candidate loop (time_selectors in _extract_data_from_iframe):
store the stripped text and stop only when it is non-empty. -/
def extract_time_loop : List ProbeResult → Option String
  | [] => Option.none
  | ProbeResult.visible t _ :: rest =>
      if pyStrip t = "" then extract_time_loop rest else some (pyStrip t)
  | _ :: rest => extract_time_loop rest

/-- Current-bid fallback loop (bid_selectors): each candidate is tagged with
whether it is the bid-amount input selector; the loop stops at the first
visible candidate, storing the input value attribute when truthy, else the
raw text content. -/
def extract_bid_fallback : List (Bool × ProbeResult) → Option String
  | [] => Option.none
  | (isInput, ProbeResult.visible t a) :: _ =>
      if isInput then some (pyOrText a t) else some t
  | _ :: rest => extract_bid_fallback rest

/-- Current bid from the iframe: the SVG blue-text probe first; on visibility
store the stripped text when non-empty; when not visible run the fallback
selector loop; a raised probe aborts the whole bid section (outer except). -/
def extract_bid (svg : ProbeResult) (fb : List (Bool × ProbeResult)) : Option String :=
  match svg with
  | ProbeResult.err => Option.none
  | ProbeResult.visible t _ => if pyStrip t = "" then Option.none else some (pyStrip t)
  | ProbeResult.notVisible => extract_bid_fallback fb

/-- Bidder scan over the SVG black-text elements: the first stripped text that
is non-empty, is not the literal Bid! label and does not start with a dollar
sign. -/
def first_qualifying_bidder : List String → Option String
  | [] => Option.none
  | t :: ts =>
      let t := pyStrip t
      if t ≠ "" ∧ t ≠ "Bid!" ∧ pyStartsWith t "$" = false then some t
      else first_qualifying_bidder ts

/-- Bidder fallback loop (bidder_selectors, run from the except branch):
stops at the first visible candidate, storing its raw text content. -/
def extract_bidder_fallback : List ProbeResult → Option String
  | [] => Option.none
  | ProbeResult.visible t _ :: _ => some t
  | _ :: rest => extract_bidder_fallback rest

/-- Current bidder from the iframe: the SVG text scan when the count/text
queries succeed (some texts); when they raise (none) the fallback selector
loop runs from the except branch. -/
def extract_bidder (svgTexts : Option (List String)) (fb : List ProbeResult) : Option String :=
  match svgTexts with
  | some l => first_qualifying_bidder l
  | Option.none => extract_bidder_fallback fb

/-- Active-bidders candidate loop (bidders_selectors): stops at the first
visible candidate; stores the value of the first digit run of its text when
one exists, otherwise stores nothing. -/
def extract_active_bidders : List ProbeResult → Option Nat
  | [] => Option.none
  | ProbeResult.visible t _ :: _ => (firstDigitRun t.data).map digitsToNat
  | _ :: rest => extract_active_bidders rest

/-- Auction id from the page URL:
url.split(auctionDetails=)[1].split(ampersand)[0] when the marker occurs. -/
def extract_auction_id (url : String) : Option String :=
  match afterFirst "auctionDetails=".data url.data with
  | Option.none => Option.none
  | some rest =>
      some (String.mk (upToFirst "&".data (upToFirst "auctionDetails=".data rest)))

/-- Is any indicator count positive (count() result, none when the query raised)? -/
def any_positive (l : List (Option Nat)) : Bool :=
  l.any (fun c => match c with | some n => decide (0 < n) | Option.none => false)

/-- _check_main_page_auction_status: the live indicators set status to active,
then the ended indicators overwrite it to ended. -/
def check_main_page_status (d : Snapshot) (statusCounts endedCounts : List (Option Nat)) :
    Snapshot :=
  let d := if any_positive statusCounts then dictSet d "status" (FieldVal.str "active") else d
  if any_positive endedCounts then dictSet d "status" (FieldVal.str "ended") else d

/-- Decoded view of one recent WebSocket message inside
_check_network_auction_data: none when the message is not recent, fails to
parse, or does not mention bid; otherwise the four optional fields it carries. -/
structure WsFields where
  currentBid : Option String
  currentBidder : Option String
  timeRemaining : Option String
  status : Option String
deriving DecidableEq, Repr

/-- Apply one decoded WebSocket message to the snapshot
(_check_network_auction_data loop body). -/
def apply_ws_msg (d : Snapshot) (m : Option WsFields) : Snapshot :=
  match m with
  | Option.none => d
  | some f =>
      let d := setIfSome d "current_bid" (f.currentBid.map FieldVal.str)
      let d := setIfSome d "current_bidder" (f.currentBidder.map FieldVal.str)
      let d := setIfSome d "time_remaining" (f.timeRemaining.map FieldVal.str)
      setIfSome d "status" (f.status.map FieldVal.str)

/-- Oracle for one invocation of the Copart extraction: page state, the outcome
of every selector probe the extraction can issue, and the decoded recent
WebSocket messages (the source never registers the WebSocket handler, so this
list is always empty in the running program, but the code iterates it). -/
structure PageOracle where
  pageClosed : Bool
  url : String
  now : String
  hasFrame : Bool
  titleProbes : List ProbeResult
  lotNumProbes : List ProbeResult
  statusCounts : List (Option Nat)
  endedCounts : List (Option Nat)
  bidSvgProbe : ProbeResult
  bidFallbackProbes : List (Bool × ProbeResult)
  bidderSvgTexts : Option (List String)
  bidderFallbackProbes : List ProbeResult
  timeProbes : List ProbeResult
  biddersProbes : List ProbeResult
  wsDecoded : List (Option WsFields)
deriving DecidableEq, Repr

/-- The Copart snapshot dict literal that opens _extract_auction_data:
every tracked field initialized to its sentinel. -/
def initial_auction_data (now : String) : Snapshot :=
  [("auction_id", FieldVal.str "Unknown"),
   ("lot_title", FieldVal.str "N/A"),
   ("lot_number", FieldVal.str "N/A"),
   ("current_bid", FieldVal.str "N/A"),
   ("current_bidder", FieldVal.str "N/A"),
   ("time_remaining", FieldVal.str "N/A"),
   ("active_bidders", FieldVal.int 0),
   ("status", FieldVal.str "unknown"),
   ("last_update", FieldVal.str now)]

/-- _extract_lot_details_from_main_page: returns immediately when no auction
frame is resolved; otherwise runs the title and lot-number candidate loops. -/
def extract_lot_details (d : Snapshot) (hasFrame : Bool)
    (titleProbes lotNumProbes : List ProbeResult) : Snapshot :=
  if hasFrame then
    let d := setIfSome d "lot_title" ((extract_lot_title_loop titleProbes).map FieldVal.str)
    setIfSome d "lot_number" ((extract_lot_number_loop lotNumProbes).map FieldVal.str)
  else d

/-- _extract_data_from_iframe: bid, bidder, time remaining and active bidders. -/
def extract_from_iframe (d : Snapshot) (o : PageOracle) : Snapshot :=
  let d := setIfSome d "current_bid"
      ((extract_bid o.bidSvgProbe o.bidFallbackProbes).map FieldVal.str)
  let d := setIfSome d "current_bidder"
      ((extract_bidder o.bidderSvgTexts o.bidderFallbackProbes).map FieldVal.str)
  let d := setIfSome d "time_remaining" ((extract_time_loop o.timeProbes).map FieldVal.str)
  setIfSome d "active_bidders"
      ((extract_active_bidders o.biddersProbes).map (fun n => FieldVal.int (n : Int)))

/-- AuctionMonitor._extract_auction_data: initialize every field to its
sentinel, return at once when the page is closed, then auction id from the
URL, lot details, main-page status, iframe data when a frame is resolved,
and the recent network messages.  Total: every per-field failure was
absorbed into its probe result. -/
def extract_auction_data (o : PageOracle) : Snapshot :=
  let d := initial_auction_data o.now
  if o.pageClosed then d
  else
    let d := setIfSome d "auction_id" ((extract_auction_id o.url).map FieldVal.str)
    let d := extract_lot_details d o.hasFrame o.titleProbes o.lotNumProbes
    let d := check_main_page_status d o.statusCounts o.endedCounts
    let d := if o.hasFrame then extract_from_iframe d o else d
    o.wsDecoded.foldl apply_ws_msg d

/-! ## IAAI field extraction (IAAIAuctionMonitor._extract_auction_data) -/

/-- IAAI candidate loop shape for current_item, asking_bid,
high_bidder_location and bid_status: stop at the first visible candidate and
store its raw text content. -/
def first_visible_text : List ProbeResult → Option String
  | [] => Option.none
  | ProbeResult.visible t _ :: _ => some t
  | _ :: rest => first_visible_text rest

/-- IAAI stock-number loop: stop at the first visible candidate; store the
first digit run of its text when one exists. -/
def iaai_stock_number (l : List ProbeResult) : Option String :=
  match first_visible_text l with
  | Option.none => Option.none
  | some t => (firstDigitRun t.data).map (fun cs => String.mk cs)

/-- Oracle for one invocation of the IAAI extraction. -/
structure IaaiOracle where
  now : String
  itemProbes : List ProbeResult
  stockProbes : List ProbeResult
  askingProbes : List ProbeResult
  locationProbes : List ProbeResult
  statusProbes : List ProbeResult
deriving DecidableEq, Repr

/-- The IAAI snapshot dict literal that opens _extract_auction_data. -/
def iaai_initial_auction_data (now : String) : Snapshot :=
  [("auction_id", FieldVal.str "Unknown"),
   ("current_item", FieldVal.str "N/A"),
   ("stock_number", FieldVal.str "N/A"),
   ("asking_bid", FieldVal.str "N/A"),
   ("high_bidder_location", FieldVal.str "N/A"),
   ("bid_status", FieldVal.str "N/A"),
   ("status", FieldVal.str "unknown"),
   ("active_bidders", FieldVal.int 0),
   ("last_update", FieldVal.str now)]

/-- IAAIAuctionMonitor._extract_auction_data composed with
_extract_data_from_page: five candidate loops over the page; auction_id,
status and active_bidders are never written. -/
def iaai_extract_auction_data (o : IaaiOracle) : Snapshot :=
  let d := iaai_initial_auction_data o.now
  let d := setIfSome d "current_item" ((first_visible_text o.itemProbes).map FieldVal.str)
  let d := setIfSome d "stock_number" ((iaai_stock_number o.stockProbes).map FieldVal.str)
  let d := setIfSome d "asking_bid" ((first_visible_text o.askingProbes).map FieldVal.str)
  let d := setIfSome d "high_bidder_location"
      ((first_visible_text o.locationProbes).map FieldVal.str)
  setIfSome d "bid_status" ((first_visible_text o.statusProbes).map FieldVal.str)

/-! ## Update broadcaster payloads

The dict literals passed to socketio.emit in _monitor_auction (initial
load) and _handle_console_message (push-decoded change), for both
variants. -/

/-- A value placed in an emitted socketio payload. -/
inductive PyVal where
  | bool (b : Bool)
  | str (s : String)
  | snap (d : Snapshot)
  | fld (v : FieldVal)
deriving DecidableEq, Repr

/-- The auction_update payload emitted after the initial extraction in
_monitor_auction (both variants use the same literal). -/
def initial_auction_update_msg (isMonitoring : Bool) (snap : Snapshot)
    (lastUpdate : String) : List (String × PyVal) :=
  [("is_monitoring", PyVal.bool isMonitoring),
   ("current_auction", PyVal.snap snap),
   ("last_update", PyVal.str lastUpdate),
   ("content_change", PyVal.bool false),
   ("initial_load", PyVal.bool true)]

/-- The auction_update payload emitted from the Copart BID_CHANGE branch of
_handle_console_message. -/
def bid_change_auction_update_msg (isMonitoring : Bool) (snap : Snapshot)
    (lastUpdate : String) (lotTitle lotNumber bidSuggestion : FieldVal) :
    List (String × PyVal) :=
  [("is_monitoring", PyVal.bool isMonitoring),
   ("current_auction", PyVal.snap snap),
   ("last_update", PyVal.str lastUpdate),
   ("content_change", PyVal.bool true),
   ("lot_title", PyVal.fld lotTitle),
   ("lot_number", PyVal.fld lotNumber),
   ("bid_suggestion", PyVal.fld bidSuggestion)]

/-- The auction_update payload emitted from the IAAI BID_CHANGE branch of
IAAIAuctionMonitor._handle_console_message. -/
def iaai_bid_change_auction_update_msg (isMonitoring : Bool) (snap : Snapshot)
    (lastUpdate : String) (item stockNumber askingBid bidStatus : FieldVal) :
    List (String × PyVal) :=
  [("is_monitoring", PyVal.bool isMonitoring),
   ("current_auction", PyVal.snap snap),
   ("last_update", PyVal.str lastUpdate),
   ("content_change", PyVal.bool true),
   ("current_item", PyVal.fld item),
   ("stock_number", PyVal.fld stockNumber),
   ("asking_bid", PyVal.fld askingBid),
   ("bid_status", PyVal.fld bidStatus)]

/-- Python str() of a snapshot value, as used inside the f-strings of the
bid-change notification. -/
def pyStrOfField : FieldVal → String
  | FieldVal.str s => s
  | FieldVal.int n => toString n
  | FieldVal.none => "None"

/-- The bid_change_notification payload emitted from the Copart BID_CHANGE
branch (message text built by the two f-strings in the source). -/
def bid_change_notification_msg (bd : JObj) (lotTitle lotNumber bidSuggestion : FieldVal)
    (now : String) : List (String × PyVal) :=
  let suggestionText :=
    if bidSuggestion ≠ FieldVal.str "N/A"
    then ", Suggestion=" ++ pyStrOfField bidSuggestion else ""
  let consoleMessage :=
    "🚨 BID CHANGE DETECTED: Bid=" ++ pyStrOfField (jget bd "bid" (FieldVal.str "N/A"))
      ++ ", Bidder=" ++ pyStrOfField (jget bd "bidder" (FieldVal.str "N/A"))
      ++ suggestionText
      ++ " at " ++ pyStrOfField (jget bd "timestamp" (FieldVal.str "N/A"))
  let lotMessage :=
    "   📋 Lot: " ++ pyStrOfField lotTitle ++ " (#" ++ pyStrOfField lotNumber ++ ")"
  [("message", PyVal.str (consoleMessage ++ "\n" ++ lotMessage)),
   ("type", PyVal.str "bid_change"),
   ("timestamp", PyVal.fld (jget bd "timestamp" (FieldVal.str now)))]

/-! ## Console-message decoder and merge (AuctionMonitor._handle_console_message)

The handler receives one console line.  json.loads is an external library
call modelled by the parse oracle; parse failure in Python raises and the
handler swallows the exception with no state change, so the none case
returns the state unchanged.  When current_auction_data is still None,
the first attribute access on it raises AttributeError before any state
is written; the exception is swallowed, so that case also returns the
state unchanged. -/

/-- Monitor-session state visible to the console handler. -/
structure MonState where
  is_monitoring : Bool
  hasSocketio : Bool
  current_auction_data : Option Snapshot
  last_update : Option String
deriving DecidableEq, Repr

/-- An emitted socketio event: event name and payload. -/
abbrev Emitted := String × List (String × PyVal)

/-- The snapshot mutation performed by the BID_CHANGE branch of
_handle_console_message on the decoded payload bd: lot_title and lot_number
are re-stored only when the computed value differs from the sentinel, then
current_bid, current_bidder and bid_suggestion are assigned unconditionally
with the sentinel as the default for an absent key. -/
def bid_change_merge (bd : JObj) (d0 : Snapshot) : Snapshot :=
  let currentLotTitle := jget bd "lotTitle" (dictGetD d0 "lot_title" (FieldVal.str "N/A"))
  let currentLotNumber := jget bd "lotNumber" (dictGetD d0 "lot_number" (FieldVal.str "N/A"))
  let d1 := if currentLotTitle ≠ FieldVal.str "N/A"
            then dictSet d0 "lot_title" currentLotTitle else d0
  let d2 := if currentLotNumber ≠ FieldVal.str "N/A"
            then dictSet d1 "lot_number" currentLotNumber else d1
  dictUpdate d2
    [("current_bid", jget bd "bid" (FieldVal.str "N/A")),
     ("current_bidder", jget bd "bidder" (FieldVal.str "N/A")),
     ("bid_suggestion", jget bd "bidSuggestion" (FieldVal.str "N/A"))]

/-- AuctionMonitor._handle_console_message: prefix dispatch on the console
text, JSON decode via the parse oracle, field-wise merge into the snapshot,
and the socketio emissions of the BID_CHANGE branch. -/
def handle_console_message (parse : String → Option JObj) (st : MonState)
    (text : String) (now : String) : MonState × List Emitted :=
  if pyStartsWith text "BID_CHANGE:" then
    match parse (pyDrop text 11) with
    | Option.none => (st, [])
    | some bd =>
      match st.current_auction_data with
      | Option.none => (st, [])
      | some d0 =>
        let currentLotTitle := jget bd "lotTitle" (dictGetD d0 "lot_title" (FieldVal.str "N/A"))
        let currentLotNumber :=
          jget bd "lotNumber" (dictGetD d0 "lot_number" (FieldVal.str "N/A"))
        let bidSuggestion := jget bd "bidSuggestion" (FieldVal.str "N/A")
        let d3 := bid_change_merge bd d0
        let st' := { st with current_auction_data := some d3, last_update := some now }
        let msgs : List Emitted :=
          if st.hasSocketio then
            [("bid_change_notification",
              bid_change_notification_msg bd currentLotTitle currentLotNumber bidSuggestion now),
             ("auction_update",
              bid_change_auction_update_msg st.is_monitoring d3 now
                currentLotTitle currentLotNumber bidSuggestion)]
          else []
        (st', msgs)
  else if pyStartsWith text "AUCTION_UPDATE:" then
    match parse (pyDrop text 15) with
    | Option.none => (st, [])
    | some ad =>
      match st.current_auction_data with
      | Option.none => (st, [])
      | some d0 =>
        ({ st with
            current_auction_data :=
              some (dictUpdate d0 (ad.map (fun kv => (kv.1, jvalToField kv.2)))),
            last_update := some now }, [])
  else (st, [])

/-! ## Injected instrumentation script (observer_js in _setup_mutation_observer)

The MutationObserver callback installed into the auction iframe.  The DOM
re-derivation getCurrentBidInfo is abstracted as the callback input: none
when the auction root node is absent (the function returns null), else the
derived field record with null fields as none. -/

/-- The record built by getCurrentBidInfo in observer_js. -/
structure BidInfo where
  bid : Option String
  bidder : Option String
  bidSuggestion : Option String
  lotTitle : Option String
  lotNumber : Option String
  timestamp : String
deriving DecidableEq, Repr

/-- Script-local cache of the observer: lastBid, lastBidder, mutationCount. -/
structure ObserverCache where
  lastBid : Option String
  lastBidder : Option String
  mutationCount : Nat
deriving DecidableEq, Repr

/-- One console line the observer callback can produce. -/
inductive ObsLine where
  | mutation (n : Nat)
  | bidChange (info : BidInfo)
deriving DecidableEq, Repr

/-- Is the line the prefix-tagged BID_CHANGE payload line? -/
def ObsLine.tagged : ObsLine → Bool
  | .bidChange _ => true
  | _ => false

/-- JavaScript truthiness of a nullable string (null and the empty string are falsy). -/
def jsTruthy : Option String → Bool
  | Option.none => false
  | some s => s ≠ ""

/-- The MutationObserver callback of the Copart observer_js: bump the
mutation counter and log it; when the derived info exists and both bid and
bidder are truthy, compare only those two fields against the script-local
cache and, on a difference, log exactly one BID_CHANGE line and update the
cache. -/
def observer_mutation_callback (st : ObserverCache) (derived : Option BidInfo) :
    ObserverCache × List ObsLine :=
  let n := st.mutationCount + 1
  let st := { st with mutationCount := n }
  match derived with
  | Option.none => (st, [ObsLine.mutation n])
  | some info =>
      if jsTruthy info.bid && jsTruthy info.bidder then
        if info.bid ≠ st.lastBid ∨ info.bidder ≠ st.lastBidder then
          ({ st with lastBid := info.bid, lastBidder := info.bidder },
           [ObsLine.mutation n, ObsLine.bidChange info])
        else (st, [ObsLine.mutation n])
      else (st, [ObsLine.mutation n])

/-! ## Monitoring loop health-check step (_monitor_auction)

The body of the while is_monitoring loop at the point a health-check
extraction runs; the extraction outcome is scripted by the driver oracle.
The Copart variant, on an error whose lowercased text contains destroyed,
re-runs _navigate_to_auction on the current page URL and
_setup_mutation_observer; the IAAI variant only logs the error. -/

/-- A driver call the recovery path issues. -/
inductive DriverAction where
  | navigate (url : String)
  | setupObserver
deriving DecidableEq, Repr

/-- Session state threaded through the monitoring loop. -/
structure LoopState where
  is_monitoring : Bool
  current_auction_data : Option Snapshot
  last_update : Option String
  page_url : String
  recoveryCalls : List DriverAction
deriving DecidableEq, Repr

/-- One Copart health check: on success store the snapshot and timestamp; on a
destroyed-context error re-run navigation (same URL) and observer injection;
on any other error only log. -/
def health_check_step (st : LoopState) (res : Except String Snapshot) (now : String) :
    LoopState :=
  match res with
  | Except.ok d => { st with current_auction_data := some d, last_update := some now }
  | Except.error m =>
      if pyContains (pyLower m) "destroyed" then
        { st with recoveryCalls :=
            st.recoveryCalls ++ [DriverAction.navigate st.page_url, DriverAction.setupObserver] }
      else st

/-- Run the Copart monitoring loop over a script of health-check outcomes,
honouring the while is_monitoring condition. -/
def run_health_checks (st : LoopState) : List (Except String Snapshot × String) → LoopState
  | [] => st
  | (r, now) :: rest =>
      if st.is_monitoring then run_health_checks (health_check_step st r now) rest else st

/-- One IAAI health check: on success store the snapshot and timestamp; every
extraction error is only printed — no re-navigation, no re-injection. -/
def iaai_health_check_step (st : LoopState) (res : Except String Snapshot) (now : String) :
    LoopState :=
  match res with
  | Except.ok d => { st with current_auction_data := some d, last_update := some now }
  | Except.error _ => st

/-! ## Lifecycle stop (AuctionMonitor.stop_monitoring)

stop_monitoring evaluates the cleanup script when both the auction frame
and the page are present; every failure of that evaluation is caught, and
the method unconditionally ends by clearing is_monitoring.  The cleanup
evaluation outcome is scripted by the oracle; its only effects are
browser-side, so the session state after stop never depends on it. -/

/-- Outcome of the cleanup-script evaluation. -/
inductive EvalOutcome where
  | ok
  | raised (m : String)
deriving DecidableEq, Repr

/-- Session state visible to stop_monitoring. -/
structure SessionState where
  is_monitoring : Bool
  hasAuctionFrame : Bool
  hasPage : Bool
  current_auction_data : Option Snapshot
  last_update : Option String
deriving DecidableEq, Repr

/-- AuctionMonitor.stop_monitoring: returns the session state after the call
together with whether the cleanup evaluation was attempted.  Total for every
cleanup outcome: the try/except around the evaluation swallows failures, and
is_monitoring is cleared unconditionally. -/
def stop_monitoring (st : SessionState) (cleanup : EvalOutcome) : SessionState × Bool :=
  let attempted := st.hasAuctionFrame && st.hasPage
  let _ := cleanup
  ({ st with is_monitoring := false }, attempted)

/-! ## Predicates and concrete inputs used by the theorems -/

/-- The nine keys of the Copart snapshot dict literal. -/
def copart_tracked_keys : List String :=
  ["auction_id", "lot_title", "lot_number", "current_bid", "current_bidder",
   "time_remaining", "active_bidders", "status", "last_update"]

/-- The nine keys of the IAAI snapshot dict literal. -/
def iaai_tracked_keys : List String :=
  ["auction_id", "current_item", "stock_number", "asking_bid", "high_bidder_location",
   "bid_status", "status", "active_bidders", "last_update"]

/-- A probe that did not match: the candidate raised or was not visible. -/
def probe_unmatched : ProbeResult → Bool
  | ProbeResult.err => true
  | ProbeResult.notVisible => true
  | ProbeResult.visible _ _ => false

/-- An indicator count query that did not match: raised or returned zero. -/
def count_is_zero : Option Nat → Bool
  | some 0 => true
  | some (_ + 1) => false
  | Option.none => true

/-- No candidate selector of any field matched during the Copart extraction,
the URL carries no auction id, and no decoded network message carries data. -/
def no_match (o : PageOracle) : Bool :=
  (extract_auction_id o.url).isNone &&
  o.titleProbes.all probe_unmatched &&
  o.lotNumProbes.all probe_unmatched &&
  o.statusCounts.all count_is_zero &&
  o.endedCounts.all count_is_zero &&
  probe_unmatched o.bidSvgProbe &&
  o.bidFallbackProbes.all (fun p => probe_unmatched p.2) &&
  (o.bidderSvgTexts == some ([] : List String) ||
    (o.bidderSvgTexts.isNone && o.bidderFallbackProbes.all probe_unmatched)) &&
  o.bidderFallbackProbes.all probe_unmatched &&
  o.timeProbes.all probe_unmatched &&
  o.biddersProbes.all probe_unmatched &&
  o.wsDecoded.all Option.isNone

/-- No candidate selector of any field matched during the IAAI extraction. -/
def iaai_no_match (o : IaaiOracle) : Bool :=
  o.itemProbes.all probe_unmatched &&
  o.stockProbes.all probe_unmatched &&
  o.askingProbes.all probe_unmatched &&
  o.locationProbes.all probe_unmatched &&
  o.statusProbes.all probe_unmatched

/-- Shape of one snapshot entry: the active_bidders field holds a non-negative
int, every other field holds a string. -/
def field_shape_ok : String × FieldVal → Bool
  | (k, FieldVal.int n) => decide (k = "active_bidders") && decide (0 ≤ n)
  | (k, FieldVal.str _) => decide (k ≠ "active_bidders")
  | (_, FieldVal.none) => false

/-- The snapshot has exactly the given key list and every entry is well shaped. -/
def snapshot_good (d : Snapshot) (ks : List String) : Prop :=
  d.map Prod.fst = ks ∧ d.all field_shape_ok = true

/-- A candidate the Copart lot-title loop passes over: it raised, was not
visible, or was visible with an extraction that strips to the empty string. -/
def title_candidate_skipped (r : ProbeResult) : Prop :=
  r = ProbeResult.err ∨ r = ProbeResult.notVisible ∨
    ∃ t a, r = ProbeResult.visible t a ∧ pyStrip (pyOrText a t) = ""

/-- JSON parse oracle covering the two Scenario B payloads
(json.loads on only-bid and only-bidder objects). -/
def scenario_b_parse : String → Option JObj := fun s =>
  if s = "\x7b\"bid\":\"$1,300\"\x7d" then some [("bid", JVal.s "$1,300")]
  else if s = "\x7b\"bidder\":\"CA-123\"\x7d" then some [("bidder", JVal.s "CA-123")]
  else Option.none

/-- JSON parse oracle that fails on every payload (malformed JSON). -/
def null_parse : String → Option JObj := fun _ => Option.none

/-- JSON parse oracle for an AUCTION_UPDATE payload carrying only current_bid. -/
def au_only_bid_parse : String → Option JObj := fun s =>
  if s = "\x7b\"current_bid\":\"$500\"\x7d" then some [("current_bid", JVal.s "$500")]
  else Option.none

/-- Monitor state after the initial extraction, before Scenario B. -/
def scenario_b_state0 : MonState :=
  { is_monitoring := true, hasSocketio := false,
    current_auction_data := some (initial_auction_data "t0"), last_update := some "t0" }

/-- Monitor state after the push message carrying only the bid. -/
def scenario_b_state1 : MonState :=
  (handle_console_message scenario_b_parse scenario_b_state0
    ("BID_CHANGE:" ++ "\x7b\"bid\":\"$1,300\"\x7d") "t1").1

/-- Monitor state after the subsequent push message carrying only the bidder. -/
def scenario_b_state2 : MonState :=
  (handle_console_message scenario_b_parse scenario_b_state1
    ("BID_CHANGE:" ++ "\x7b\"bidder\":\"CA-123\"\x7d") "t2").1

/-- A Copart extraction oracle on which nothing matches. -/
def empty_page_oracle : PageOracle :=
  { pageClosed := false
    url := "https://www.copart.com/auctionDashboard"
    now := "t0"
    hasFrame := true
    titleProbes := [ProbeResult.notVisible, ProbeResult.err]
    lotNumProbes := []
    statusCounts := [some 0, Option.none]
    endedCounts := []
    bidSvgProbe := ProbeResult.notVisible
    bidFallbackProbes := [(false, ProbeResult.notVisible), (true, ProbeResult.err)]
    bidderSvgTexts := some []
    bidderFallbackProbes := []
    timeProbes := [ProbeResult.err]
    biddersProbes := [ProbeResult.notVisible]
    wsDecoded := [Option.none] }

/-- An IAAI extraction oracle on which nothing matches. -/
def empty_iaai_oracle : IaaiOracle :=
  { now := "t0", itemProbes := [], stockProbes := [ProbeResult.err],
    askingProbes := [ProbeResult.notVisible], locationProbes := [], statusProbes := [] }

/-! ## Dictionary lemmas -/

theorem dictFind_dictSet_self (d : Snapshot) (k : String) (v : FieldVal) :
    dictFind (dictSet d k v) k = some v := by
  induction d with
  | nil => simp [dictSet, dictFind]
  | cons p rest ih =>
    obtain ⟨a, b⟩ := p
    by_cases h : a = k
    · simp [dictSet, dictFind, h]
    · simp [dictSet, dictFind, h, ih]

theorem dictFind_dictSet_ne (d : Snapshot) (k k' : String) (v : FieldVal) (h : k' ≠ k) :
    dictFind (dictSet d k v) k' = dictFind d k' := by
  induction d with
  | nil => simp [dictSet, dictFind, Ne.symm h]
  | cons p rest ih =>
    obtain ⟨a, b⟩ := p
    by_cases ha : a = k
    · subst ha
      simp [dictSet, dictFind, Ne.symm h]
    · by_cases hk' : a = k'
      · simp [dictSet, dictFind, ha, hk', h]
      · simp [dictSet, dictFind, ha, hk', ih]

theorem dictFind_setIfSome_ne (d : Snapshot) (k k' : String) (v : Option FieldVal)
    (h : k' ≠ k) : dictFind (setIfSome d k v) k' = dictFind d k' := by
  cases v with
  | none => rfl
  | some x => exact dictFind_dictSet_ne d k k' x h

theorem keys_dictSet_of_mem (d : Snapshot) (k : String) (v : FieldVal)
    (h : k ∈ d.map Prod.fst) : (dictSet d k v).map Prod.fst = d.map Prod.fst := by
  induction d with
  | nil => simp at h
  | cons p rest ih =>
    obtain ⟨a, b⟩ := p
    by_cases ha : a = k
    · simp [dictSet, ha]
    · simp only [List.map_cons, List.mem_cons] at h
      rcases h with h | h
      · exact absurd h.symm ha
      · simp [dictSet, ha, ih h]

theorem mem_dictSet (d : Snapshot) (k : String) (v : FieldVal) (p : String × FieldVal)
    (h : p ∈ dictSet d k v) : p = (k, v) ∨ p ∈ d := by
  induction d with
  | nil => simpa [dictSet] using h
  | cons q rest ih =>
    obtain ⟨a, b⟩ := q
    by_cases ha : a = k
    · simp [dictSet, ha] at h
      rcases h with h | h
      · exact Or.inl (by simp [h])
      · exact Or.inr (List.mem_cons_of_mem _ h)
    · simp [dictSet, ha] at h
      rcases h with h | h
      · exact Or.inr (by simp [h])
      · rcases ih h with h | h
        · exact Or.inl h
        · exact Or.inr (List.mem_cons_of_mem _ h)

theorem dictFind_mem (d : Snapshot) (k : String) (v : FieldVal)
    (h : dictFind d k = some v) : (k, v) ∈ d := by
  induction d with
  | nil => simp [dictFind] at h
  | cons p rest ih =>
    obtain ⟨a, b⟩ := p
    by_cases ha : a = k
    · subst ha
      simp [dictFind] at h
      simp [h]
    · simp [dictFind, ha] at h
      exact List.mem_cons_of_mem _ (ih h)

theorem exists_dictFind_of_mem_keys (d : Snapshot) (k : String)
    (h : k ∈ d.map Prod.fst) : ∃ v, dictFind d k = some v := by
  induction d with
  | nil => simp at h
  | cons p rest ih =>
    obtain ⟨a, b⟩ := p
    by_cases ha : a = k
    · exact ⟨b, by simp [dictFind, ha]⟩
    · simp only [List.map_cons, List.mem_cons] at h
      rcases h with h | h
      · exact absurd h.symm ha
      · obtain ⟨v, hv⟩ := ih h
        exact ⟨v, by simp [dictFind, ha, hv]⟩

theorem dictFind_dictUpdate_not_mem (kvs : List (String × FieldVal)) (d : Snapshot)
    (k : String) (h : k ∉ kvs.map Prod.fst) :
    dictFind (dictUpdate d kvs) k = dictFind d k := by
  induction kvs generalizing d with
  | nil => rfl
  | cons kv rest ih =>
    simp only [List.map_cons, List.mem_cons, not_or] at h
    have : dictUpdate d (kv :: rest) = dictUpdate (dictSet d kv.1 kv.2) rest := rfl
    rw [this, ih _ h.2, dictFind_dictSet_ne _ _ _ _ h.1]

theorem dictFind_reassign_same (d : Snapshot) (k : String) (dflt : FieldVal) :
    dictFind (if dictGetD d k dflt ≠ dflt then dictSet d k (dictGetD d k dflt) else d) k
      = dictFind d k := by
  by_cases h : dictGetD d k dflt = dflt
  · simp [h]
  · rw [if_pos h, dictFind_dictSet_self]
    unfold dictGetD at h ⊢
    cases hf : dictFind d k with
    | none => rw [hf] at h; exact absurd rfl h
    | some v => rfl

/-! ## Snapshot well-formedness through the extraction pipeline -/

theorem field_shape_all_dictSet (d : Snapshot) (k : String) (v : FieldVal)
    (h : d.all field_shape_ok = true) (hv : field_shape_ok (k, v) = true) :
    (dictSet d k v).all field_shape_ok = true := by
  induction d with
  | nil => simp [dictSet, hv]
  | cons p rest ih =>
    obtain ⟨a, b⟩ := p
    simp only [List.all_cons, Bool.and_eq_true] at h
    by_cases ha : a = k
    · simp [dictSet, ha, hv, h.2]
    · simp [dictSet, ha, h.1, ih h.2]

theorem good_dictSet (d : Snapshot) (ks : List String) (k : String) (v : FieldVal)
    (h : snapshot_good d ks) (hk : k ∈ ks) (hv : field_shape_ok (k, v) = true) :
    snapshot_good (dictSet d k v) ks :=
  ⟨by rw [keys_dictSet_of_mem d k v (h.1 ▸ hk), h.1],
   field_shape_all_dictSet d k v h.2 hv⟩

theorem good_setIfSome (d : Snapshot) (ks : List String) (k : String) (v : Option FieldVal)
    (h : snapshot_good d ks) (hk : k ∈ ks)
    (hv : ∀ x, v = some x → field_shape_ok (k, x) = true) :
    snapshot_good (setIfSome d k v) ks := by
  cases v with
  | none => exact h
  | some x => exact good_dictSet d ks k x h hk (hv x rfl)

theorem shape_of_map_str (k : String) (hk : k ≠ "active_bidders") (opt : Option String) :
    ∀ x, opt.map FieldVal.str = some x → field_shape_ok (k, x) = true := by
  intro x hx
  cases opt with
  | none => simp at hx
  | some s =>
    simp only [Option.map_some'] at hx
    cases hx
    simp [field_shape_ok, hk]

theorem shape_of_map_int (opt : Option Nat) :
    ∀ x, opt.map (fun n => FieldVal.int (n : Int)) = some x →
      field_shape_ok ("active_bidders", x) = true := by
  intro x hx
  cases opt with
  | none => simp at hx
  | some n =>
    simp at hx
    subst hx
    simp [field_shape_ok]

theorem good_initial (now : String) :
    snapshot_good (initial_auction_data now) copart_tracked_keys := by
  exact ⟨rfl, rfl⟩

theorem iaai_good_initial (now : String) :
    snapshot_good (iaai_initial_auction_data now) iaai_tracked_keys := by
  exact ⟨rfl, rfl⟩

theorem good_extract_lot_details (d : Snapshot) (hf : Bool) (tp lp : List ProbeResult)
    (h : snapshot_good d copart_tracked_keys) :
    snapshot_good (extract_lot_details d hf tp lp) copart_tracked_keys := by
  unfold extract_lot_details
  cases hf with
  | false => simpa using h
  | true =>
    simp only [if_true]
    apply good_setIfSome _ _ _ _ ?_ (by decide) (shape_of_map_str _ (by decide) _)
    exact good_setIfSome _ _ _ _ h (by decide) (shape_of_map_str _ (by decide) _)

theorem good_check_main_page_status (d : Snapshot) (sc ec : List (Option Nat))
    (h : snapshot_good d copart_tracked_keys) :
    snapshot_good (check_main_page_status d sc ec) copart_tracked_keys := by
  unfold check_main_page_status
  by_cases h1 : any_positive sc = true <;> by_cases h2 : any_positive ec = true <;>
    simp only [h1, h2, if_true, if_false, Bool.false_eq_true, if_neg, reduceIte] <;>
    first
      | exact h
      | exact good_dictSet _ _ _ _ h (by decide) (by decide)
      | exact good_dictSet _ _ _ _ (good_dictSet _ _ _ _ h (by decide) (by decide))
          (by decide) (by decide)

theorem good_extract_from_iframe (d : Snapshot) (o : PageOracle)
    (h : snapshot_good d copart_tracked_keys) :
    snapshot_good (extract_from_iframe d o) copart_tracked_keys := by
  unfold extract_from_iframe
  apply good_setIfSome _ _ _ _ ?_ (by decide) (shape_of_map_int _)
  apply good_setIfSome _ _ _ _ ?_ (by decide) (shape_of_map_str _ (by decide) _)
  apply good_setIfSome _ _ _ _ ?_ (by decide) (shape_of_map_str _ (by decide) _)
  exact good_setIfSome _ _ _ _ h (by decide) (shape_of_map_str _ (by decide) _)

theorem good_apply_ws_msg (d : Snapshot) (m : Option WsFields)
    (h : snapshot_good d copart_tracked_keys) :
    snapshot_good (apply_ws_msg d m) copart_tracked_keys := by
  cases m with
  | none => exact h
  | some f =>
    unfold apply_ws_msg
    apply good_setIfSome _ _ _ _ ?_ (by decide) (shape_of_map_str _ (by decide) _)
    apply good_setIfSome _ _ _ _ ?_ (by decide) (shape_of_map_str _ (by decide) _)
    apply good_setIfSome _ _ _ _ ?_ (by decide) (shape_of_map_str _ (by decide) _)
    exact good_setIfSome _ _ _ _ h (by decide) (shape_of_map_str _ (by decide) _)

theorem good_foldl_ws (ms : List (Option WsFields)) (d : Snapshot)
    (h : snapshot_good d copart_tracked_keys) :
    snapshot_good (ms.foldl apply_ws_msg d) copart_tracked_keys := by
  induction ms generalizing d with
  | nil => exact h
  | cons m rest ih => exact ih _ (good_apply_ws_msg d m h)

theorem extract_auction_data_good (o : PageOracle) :
    snapshot_good (extract_auction_data o) copart_tracked_keys := by
  unfold extract_auction_data
  split
  · exact good_initial o.now
  · apply good_foldl_ws
    split
    · apply good_extract_from_iframe
      apply good_check_main_page_status
      apply good_extract_lot_details
      exact good_setIfSome _ _ _ _ (good_initial o.now) (by decide)
        (shape_of_map_str _ (by decide) _)
    · apply good_check_main_page_status
      apply good_extract_lot_details
      exact good_setIfSome _ _ _ _ (good_initial o.now) (by decide)
        (shape_of_map_str _ (by decide) _)

theorem iaai_extract_auction_data_good (o : IaaiOracle) :
    snapshot_good (iaai_extract_auction_data o) iaai_tracked_keys := by
  unfold iaai_extract_auction_data
  apply good_setIfSome _ _ _ _ ?_ (by decide) (shape_of_map_str _ (by decide) _)
  apply good_setIfSome _ _ _ _ ?_ (by decide) (shape_of_map_str _ (by decide) _)
  apply good_setIfSome _ _ _ _ ?_ (by decide) (shape_of_map_str _ (by decide) _)
  apply good_setIfSome _ _ _ _ ?_ (by decide) (shape_of_map_str _ (by decide) _)
  exact good_setIfSome _ _ _ _ (iaai_good_initial o.now) (by decide)
    (shape_of_map_str _ (by decide) _)

/-! ## No-match lemmas for the candidate loops -/

theorem extract_lot_title_loop_eq_none (l : List ProbeResult)
    (h : l.all probe_unmatched = true) : extract_lot_title_loop l = Option.none := by
  induction l with
  | nil => rfl
  | cons r rest ih =>
    simp only [List.all_cons, Bool.and_eq_true] at h
    cases r with
    | err => exact ih h.2
    | notVisible => exact ih h.2
    | visible t a => simp [probe_unmatched] at h

theorem extract_lot_number_loop_eq_none (l : List ProbeResult)
    (h : l.all probe_unmatched = true) : extract_lot_number_loop l = Option.none := by
  induction l with
  | nil => rfl
  | cons r rest ih =>
    simp only [List.all_cons, Bool.and_eq_true] at h
    cases r with
    | err => exact ih h.2
    | notVisible => exact ih h.2
    | visible t a => simp [probe_unmatched] at h

theorem extract_time_loop_eq_none (l : List ProbeResult)
    (h : l.all probe_unmatched = true) : extract_time_loop l = Option.none := by
  induction l with
  | nil => rfl
  | cons r rest ih =>
    simp only [List.all_cons, Bool.and_eq_true] at h
    cases r with
    | err => exact ih h.2
    | notVisible => exact ih h.2
    | visible t a => simp [probe_unmatched] at h

theorem extract_bid_fallback_eq_none (l : List (Bool × ProbeResult))
    (h : l.all (fun p => probe_unmatched p.2) = true) :
    extract_bid_fallback l = Option.none := by
  induction l with
  | nil => rfl
  | cons r rest ih =>
    obtain ⟨flag, pr⟩ := r
    simp only [List.all_cons, Bool.and_eq_true] at h
    cases pr with
    | err => exact ih h.2
    | notVisible => exact ih h.2
    | visible t a => simp [probe_unmatched] at h

theorem extract_bidder_fallback_eq_none (l : List ProbeResult)
    (h : l.all probe_unmatched = true) : extract_bidder_fallback l = Option.none := by
  induction l with
  | nil => rfl
  | cons r rest ih =>
    simp only [List.all_cons, Bool.and_eq_true] at h
    cases r with
    | err => exact ih h.2
    | notVisible => exact ih h.2
    | visible t a => simp [probe_unmatched] at h

theorem first_visible_text_eq_none (l : List ProbeResult)
    (h : l.all probe_unmatched = true) : first_visible_text l = Option.none := by
  induction l with
  | nil => rfl
  | cons r rest ih =>
    simp only [List.all_cons, Bool.and_eq_true] at h
    cases r with
    | err => exact ih h.2
    | notVisible => exact ih h.2
    | visible t a => simp [probe_unmatched] at h

theorem extract_active_bidders_eq_none (l : List ProbeResult)
    (h : l.all probe_unmatched = true) : extract_active_bidders l = Option.none := by
  induction l with
  | nil => rfl
  | cons r rest ih =>
    simp only [List.all_cons, Bool.and_eq_true] at h
    cases r with
    | err => exact ih h.2
    | notVisible => exact ih h.2
    | visible t a => simp [probe_unmatched] at h

theorem any_positive_eq_false (l : List (Option Nat))
    (h : l.all count_is_zero = true) : any_positive l = false := by
  induction l with
  | nil => rfl
  | cons c rest ih =>
    simp only [List.all_cons, Bool.and_eq_true] at h
    cases c with
    | none => simpa [any_positive] using ih h.2
    | some n =>
      cases n with
      | zero => simpa [any_positive] using ih h.2
      | succ m => simp [count_is_zero] at h

theorem foldl_apply_ws_msg_eq_self (ms : List (Option WsFields)) (d : Snapshot)
    (h : ms.all Option.isNone = true) : ms.foldl apply_ws_msg d = d := by
  induction ms generalizing d with
  | nil => rfl
  | cons m rest ih =>
    simp only [List.all_cons, Bool.and_eq_true] at h
    cases m with
    | none => exact ih d h.2
    | some f => simp at h

theorem extract_bid_eq_none (svg : ProbeResult) (fb : List (Bool × ProbeResult))
    (h1 : probe_unmatched svg = true) (h2 : fb.all (fun p => probe_unmatched p.2) = true) :
    extract_bid svg fb = Option.none := by
  cases svg with
  | err => rfl
  | notVisible => exact extract_bid_fallback_eq_none fb h2
  | visible t a => simp [probe_unmatched] at h1

theorem extract_lot_details_eq_self (d : Snapshot) (hf : Bool) (tp lp : List ProbeResult)
    (h1 : tp.all probe_unmatched = true) (h2 : lp.all probe_unmatched = true) :
    extract_lot_details d hf tp lp = d := by
  unfold extract_lot_details
  cases hf with
  | false => rfl
  | true =>
    simp [extract_lot_title_loop_eq_none tp h1, extract_lot_number_loop_eq_none lp h2,
      setIfSome]

theorem check_main_page_status_eq_self (d : Snapshot) (sc ec : List (Option Nat))
    (h1 : sc.all count_is_zero = true) (h2 : ec.all count_is_zero = true) :
    check_main_page_status d sc ec = d := by
  simp [check_main_page_status, any_positive_eq_false sc h1, any_positive_eq_false ec h2]

theorem extract_from_iframe_eq_self (d : Snapshot) (o : PageOracle)
    (h6 : probe_unmatched o.bidSvgProbe = true)
    (h7 : o.bidFallbackProbes.all (fun p => probe_unmatched p.2) = true)
    (h8 : o.bidderSvgTexts = some [] ∨ o.bidderSvgTexts = Option.none)
    (h9 : o.bidderFallbackProbes.all probe_unmatched = true)
    (h10 : o.timeProbes.all probe_unmatched = true)
    (h11 : o.biddersProbes.all probe_unmatched = true) :
    extract_from_iframe d o = d := by
  have hbid : extract_bid o.bidSvgProbe o.bidFallbackProbes = Option.none :=
    extract_bid_eq_none _ _ h6 h7
  have hbidder : extract_bidder o.bidderSvgTexts o.bidderFallbackProbes = Option.none := by
    rcases h8 with h8 | h8 <;> rw [h8]
    · rfl
    · exact extract_bidder_fallback_eq_none _ h9
  simp [extract_from_iframe, hbid, hbidder, extract_time_loop_eq_none _ h10,
    extract_active_bidders_eq_none _ h11, setIfSome]

theorem extract_auction_data_sentinel (o : PageOracle) (h : no_match o = true) :
    extract_auction_data o = initial_auction_data o.now := by
  simp only [no_match, Bool.and_eq_true, Bool.or_eq_true, beq_iff_eq,
    Option.isNone_iff_eq_none] at h
  obtain ⟨⟨⟨⟨⟨⟨⟨⟨⟨⟨⟨h1, h2⟩, h3⟩, h4⟩, h5⟩, h6⟩, h7⟩, h8⟩, h9⟩, h10⟩, h11⟩, h12⟩ := h
  have h8' : o.bidderSvgTexts = some [] ∨ o.bidderSvgTexts = Option.none := by
    rcases h8 with h8 | ⟨h8, _⟩
    · exact Or.inl h8
    · exact Or.inr h8
  unfold extract_auction_data
  split
  · rfl
  · rw [h1]
    simp only [Option.map_none', setIfSome]
    rw [extract_lot_details_eq_self _ _ _ _ h2 h3]
    rw [check_main_page_status_eq_self _ _ _ h4 h5]
    have hif : (if o.hasFrame = true then extract_from_iframe (initial_auction_data o.now) o
                else initial_auction_data o.now) = initial_auction_data o.now := by
      split
      · exact extract_from_iframe_eq_self _ o h6 h7 h8' h9 h10 h11
      · rfl
    rw [hif]
    exact foldl_apply_ws_msg_eq_self _ _ h12

theorem iaai_extract_auction_data_sentinel (o : IaaiOracle) (h : iaai_no_match o = true) :
    iaai_extract_auction_data o = iaai_initial_auction_data o.now := by
  simp only [iaai_no_match, Bool.and_eq_true] at h
  obtain ⟨⟨⟨⟨h1, h2⟩, h3⟩, h4⟩, h5⟩ := h
  have hstock : iaai_stock_number o.stockProbes = Option.none := by
    unfold iaai_stock_number
    rw [first_visible_text_eq_none _ h2]
  unfold iaai_extract_auction_data
  simp [hstock, first_visible_text_eq_none _ h1, first_visible_text_eq_none _ h3,
    first_visible_text_eq_none _ h4, first_visible_text_eq_none _ h5, setIfSome]

/-- C2: Sentinel totality — every invocation of the extraction returns a
snapshot with exactly the tracked field keys, and when no candidate selector
matched every field holds its sentinel value (the dict literal opening the
extractor); both monitor variants.  The embedded extractor is a total
function: every per-field driver failure is absorbed as a probe result and
never escapes to the caller. -/
theorem c2_sentinel_totality :
    (∀ o : PageOracle,
       (extract_auction_data o).map Prod.fst = copart_tracked_keys ∧
       (no_match o = true → extract_auction_data o = initial_auction_data o.now)) ∧
    (∀ o : IaaiOracle,
       (iaai_extract_auction_data o).map Prod.fst = iaai_tracked_keys ∧
       (iaai_no_match o = true →
         iaai_extract_auction_data o = iaai_initial_auction_data o.now)) := by
  constructor
  · intro o
    exact ⟨(extract_auction_data_good o).1, extract_auction_data_sentinel o⟩
  · intro o
    exact ⟨(iaai_extract_auction_data_good o).1, iaai_extract_auction_data_sentinel o⟩

/-- Witness for C2 at a concrete oracle on which nothing matches. -/
theorem c2_sentinel_totality_witness :
    (extract_auction_data empty_page_oracle).map Prod.fst = copart_tracked_keys ∧
    extract_auction_data empty_page_oracle = initial_auction_data empty_page_oracle.now ∧
    iaai_extract_auction_data empty_iaai_oracle
      = iaai_initial_auction_data empty_iaai_oracle.now :=
  ⟨(c2_sentinel_totality.1 empty_page_oracle).1,
   (c2_sentinel_totality.1 empty_page_oracle).2 (by decide),
   (c2_sentinel_totality.2 empty_iaai_oracle).2 (by decide)⟩

/-- C10: active_bidders type invariant — in every snapshot the extraction
returns, active_bidders holds a non-negative integer (0 when no bidder-count
candidate matched, else the first decimal number of the matched text), and
every other tracked field holds a string; the IAAI extractor never writes
active_bidders at all, so there it is always the integer 0. -/
theorem c10_active_bidders_type_invariant :
    (∀ o : PageOracle,
       (∃ n : Int, 0 ≤ n ∧
          dictFind (extract_auction_data o) "active_bidders" = some (FieldVal.int n)) ∧
       (∀ k v, dictFind (extract_auction_data o) k = some v → k ≠ "active_bidders" →
          ∃ s, v = FieldVal.str s)) ∧
    (∀ o : IaaiOracle,
       dictFind (iaai_extract_auction_data o) "active_bidders" = some (FieldVal.int 0)) := by
  constructor
  · intro o
    have hg := extract_auction_data_good o
    constructor
    · obtain ⟨v, hv⟩ := exists_dictFind_of_mem_keys _ "active_bidders"
        (by rw [hg.1]; decide)
      have hmem := dictFind_mem _ _ _ hv
      have hshape := (List.all_eq_true.mp hg.2) _ hmem
      cases v with
      | str s => simp [field_shape_ok] at hshape
      | none => simp [field_shape_ok] at hshape
      | int n =>
        simp only [field_shape_ok, Bool.and_eq_true, decide_eq_true_eq] at hshape
        exact ⟨n, hshape.2, hv⟩
    · intro k v hv hk
      have hmem := dictFind_mem _ _ _ hv
      have hshape := (List.all_eq_true.mp hg.2) _ hmem
      cases v with
      | str s => exact ⟨s, rfl⟩
      | none => simp [field_shape_ok] at hshape
      | int n =>
        simp only [field_shape_ok, Bool.and_eq_true, decide_eq_true_eq] at hshape
        exact absurd hshape.1 hk
  · intro o
    unfold iaai_extract_auction_data
    rw [dictFind_setIfSome_ne _ "bid_status" "active_bidders" _ (by decide),
        dictFind_setIfSome_ne _ "high_bidder_location" "active_bidders" _ (by decide),
        dictFind_setIfSome_ne _ "asking_bid" "active_bidders" _ (by decide),
        dictFind_setIfSome_ne _ "stock_number" "active_bidders" _ (by decide),
        dictFind_setIfSome_ne _ "current_item" "active_bidders" _ (by decide)]
    rfl

/-- Witness for C10: the string-typed conclusion at the concrete oracle and
key current_bid, and the non-negative integer at active_bidders. -/
theorem c10_active_bidders_type_invariant_witness :
    (∃ s, FieldVal.str "N/A" = FieldVal.str s) ∧
    (∃ n : Int, 0 ≤ n ∧
       dictFind (extract_auction_data empty_page_oracle) "active_bidders"
         = some (FieldVal.int n)) :=
  ⟨(c10_active_bidders_type_invariant.1 empty_page_oracle).2 "current_bid"
      (FieldVal.str "N/A") (by decide) (by decide),
   (c10_active_bidders_type_invariant.1 empty_page_oracle).1⟩

/-! ## Candidate-loop stepping lemmas -/

theorem extract_lot_title_loop_cons_skip (r : ProbeResult) (l : List ProbeResult)
    (h : title_candidate_skipped r) :
    extract_lot_title_loop (r :: l) = extract_lot_title_loop l := by
  rcases h with h | h | ⟨t, a, h, hskip⟩
  · subst h; rfl
  · subst h; rfl
  · subst h
    show (if pyStrip (pyOrText a t) = "" then extract_lot_title_loop l
          else some (pyStrip (pyOrText a t))) = extract_lot_title_loop l
    rw [if_pos hskip]

theorem extract_lot_title_loop_cons_hit (t : String) (a : Option String)
    (l : List ProbeResult) (h : pyStrip (pyOrText a t) ≠ "") :
    extract_lot_title_loop (ProbeResult.visible t a :: l)
      = some (pyStrip (pyOrText a t)) := by
  show (if pyStrip (pyOrText a t) = "" then extract_lot_title_loop l
        else some (pyStrip (pyOrText a t))) = some (pyStrip (pyOrText a t))
  rw [if_neg h]

theorem first_visible_text_cons_skip (r : ProbeResult) (l : List ProbeResult)
    (h : r = ProbeResult.err ∨ r = ProbeResult.notVisible) :
    first_visible_text (r :: l) = first_visible_text l := by
  rcases h with h | h <;> subst h <;> rfl

/-- C3 counterexample: in the Copart lot-title loop, a first candidate that is
visible but extracts an empty string is passed over — the loop does not stop
at the first visible match and does not store that candidate's value. -/
theorem c3_fallback_order_counterexample :
    extract_lot_title_loop
        [ProbeResult.visible "" Option.none, ProbeResult.visible "Car" Option.none]
      = some "Car" ∧
    extract_lot_title_loop
        [ProbeResult.visible "" Option.none, ProbeResult.visible "Car" Option.none]
      ≠ some "" := by decide

/-- C3 amended: candidates are tried strictly in order; the Copart lot-title
loop returns the first visible candidate whose extracted value is non-empty
after stripping (candidates that raised, were not visible, or stripped to
empty are passed over), independent of its position; the IAAI item loop stops
at the first visible candidate unconditionally and returns its raw text. -/
theorem c3_fallback_order_amended :
    (∀ (pre rest : List ProbeResult) (t : String) (a : Option String),
       (∀ r ∈ pre, title_candidate_skipped r) →
       pyStrip (pyOrText a t) ≠ "" →
       extract_lot_title_loop (pre ++ ProbeResult.visible t a :: rest)
         = some (pyStrip (pyOrText a t))) ∧
    (∀ (pre rest : List ProbeResult) (t : String) (a : Option String),
       (∀ r ∈ pre, r = ProbeResult.err ∨ r = ProbeResult.notVisible) →
       first_visible_text (pre ++ ProbeResult.visible t a :: rest) = some t) := by
  constructor
  · intro pre rest t a hpre ht
    induction pre with
    | nil => simpa using extract_lot_title_loop_cons_hit t a rest ht
    | cons r pre' ih =>
      have hr := hpre r (List.mem_cons_self r pre')
      have hrest : ∀ r' ∈ pre', title_candidate_skipped r' :=
        fun r' h' => hpre r' (List.mem_cons_of_mem r h')
      rw [List.cons_append, extract_lot_title_loop_cons_skip r _ hr]
      exact ih hrest
  · intro pre rest t a hpre
    induction pre with
    | nil => rfl
    | cons r pre' ih =>
      have hr := hpre r (List.mem_cons_self r pre')
      have hrest : ∀ r' ∈ pre', r' = ProbeResult.err ∨ r' = ProbeResult.notVisible :=
        fun r' h' => hpre r' (List.mem_cons_of_mem r h')
      rw [List.cons_append, first_visible_text_cons_skip r _ hr]
      exact ih hrest

/-- Witness for C3 amended: Scenario A shape — first candidate absent, second
visible with a dollar amount. -/
theorem c3_fallback_order_witness :
    extract_lot_title_loop
        ([ProbeResult.notVisible] ++ ProbeResult.visible "$1,250" Option.none :: [])
      = some (pyStrip (pyOrText Option.none "$1,250")) ∧
    first_visible_text ([ProbeResult.err] ++ ProbeResult.visible "Lot 42" Option.none :: [])
      = some "Lot 42" :=
  ⟨c3_fallback_order_amended.1 [ProbeResult.notVisible] [] "$1,250" Option.none
      (fun r hr => by
        simp only [List.mem_singleton] at hr
        subst hr
        exact Or.inr (Or.inl rfl))
      (by decide),
   c3_fallback_order_amended.2 [ProbeResult.err] [] "Lot 42" Option.none
      (fun r hr => by
        simp only [List.mem_singleton] at hr
        subst hr
        exact Or.inl rfl)⟩

/-! ## Merge-function lemmas for the push decoder -/

theorem dictUpdate_three (d : Snapshot) (a b c : String) (x y z : FieldVal) :
    dictUpdate d [(a, x), (b, y), (c, z)]
      = dictSet (dictSet (dictSet d a x) b y) c z := rfl

theorem bid_change_merge_current_bid (bd : JObj) (d : Snapshot) :
    dictFind (bid_change_merge bd d) "current_bid"
      = some (jget bd "bid" (FieldVal.str "N/A")) := by
  simp only [bid_change_merge]
  rw [dictUpdate_three,
      dictFind_dictSet_ne _ "bid_suggestion" "current_bid" _ (by decide),
      dictFind_dictSet_ne _ "current_bidder" "current_bid" _ (by decide),
      dictFind_dictSet_self]

theorem bid_change_merge_current_bidder (bd : JObj) (d : Snapshot) :
    dictFind (bid_change_merge bd d) "current_bidder"
      = some (jget bd "bidder" (FieldVal.str "N/A")) := by
  simp only [bid_change_merge]
  rw [dictUpdate_three,
      dictFind_dictSet_ne _ "bid_suggestion" "current_bidder" _ (by decide),
      dictFind_dictSet_self]

theorem bid_change_merge_lot_title_absent (bd : JObj) (d : Snapshot)
    (h2 : jlookup bd "lotTitle" = Option.none) :
    dictFind (bid_change_merge bd d) "lot_title" = dictFind d "lot_title" := by
  simp only [bid_change_merge, jget, h2]
  rw [dictUpdate_three,
      dictFind_dictSet_ne _ "bid_suggestion" "lot_title" _ (by decide),
      dictFind_dictSet_ne _ "current_bidder" "lot_title" _ (by decide),
      dictFind_dictSet_ne _ "current_bid" "lot_title" _ (by decide)]
  split
  · rw [dictFind_dictSet_ne _ "lot_number" "lot_title" _ (by decide)]
    exact dictFind_reassign_same d "lot_title" (FieldVal.str "N/A")
  · exact dictFind_reassign_same d "lot_title" (FieldVal.str "N/A")

/-- C1 counterexample: the Scenario B message sequence on the Copart decoder —
after BID_CHANGE with only bid and then BID_CHANGE with only bidder, the
final snapshot holds the bidder but the bid has been overwritten with the
sentinel, so the snapshot does not hold both values. -/
theorem c1_merge_nondestructive_counterexample :
    dictFind (scenario_b_state2.current_auction_data.getD []) "current_bidder"
      = some (FieldVal.str "CA-123") ∧
    dictFind (scenario_b_state2.current_auction_data.getD []) "current_bid"
      = some (FieldVal.str "N/A") ∧
    dictFind (scenario_b_state2.current_auction_data.getD []) "current_bid"
      ≠ some (FieldVal.str "$1,300") := by decide

/-- C1 amended: only the AUCTION_UPDATE path merges field-wise (a key absent
from the event is left unchanged); on the BID_CHANGE path, lot_title is
preserved when absent from the event, but current_bid (and likewise
current_bidder and bid_suggestion) is overwritten with the sentinel N/A when
absent — hence after the Scenario B sequence the snapshot holds the bidder
and the sentinel bid. -/
theorem c1_merge_fieldwise_amended :
    (∀ (parse : String → Option JObj) (st : MonState) (d : Snapshot) (ad : JObj)
       (text now k : String),
       pyStartsWith text "BID_CHANGE:" = false →
       pyStartsWith text "AUCTION_UPDATE:" = true →
       parse (pyDrop text 15) = some ad →
       st.current_auction_data = some d →
       k ∉ ad.map Prod.fst →
       ∃ d', (handle_console_message parse st text now).1.current_auction_data = some d' ∧
         dictFind d' k = dictFind d k) ∧
    (∀ (parse : String → Option JObj) (st : MonState) (d : Snapshot) (bd : JObj)
       (text now : String),
       pyStartsWith text "BID_CHANGE:" = true →
       parse (pyDrop text 11) = some bd →
       st.current_auction_data = some d →
       jlookup bd "bid" = Option.none →
       jlookup bd "lotTitle" = Option.none →
       ∃ d', (handle_console_message parse st text now).1.current_auction_data = some d' ∧
         dictFind d' "current_bid" = some (FieldVal.str "N/A") ∧
         dictFind d' "lot_title" = dictFind d "lot_title") := by
  constructor
  · intro parse st d ad text now k hb ha hp hc hk
    simp only [handle_console_message, hb, ha, hp, hc, Bool.false_eq_true, if_false, if_true,
      reduceIte]
    refine ⟨_, rfl, ?_⟩
    apply dictFind_dictUpdate_not_mem
    have hkeys : (ad.map (fun kv => (kv.1, jvalToField kv.2))).map Prod.fst
        = ad.map Prod.fst := by
      simp [List.map_map, Function.comp]
    rw [hkeys]
    exact hk
  · intro parse st d bd text now hb hp hc h1 h2
    simp only [handle_console_message, hb, hp, hc, if_true, reduceIte]
    refine ⟨_, rfl, ?_, ?_⟩
    · rw [bid_change_merge_current_bid]
      simp [jget, h1]
    · exact bid_change_merge_lot_title_absent bd d h2

/-- Witness for C1 amended: a concrete AUCTION_UPDATE event lacking the bidder
leaves the bidder unchanged, and a concrete BID_CHANGE event lacking the bid
resets the bid to the sentinel while preserving the lot title. -/
theorem c1_merge_fieldwise_witness :
    (∃ d', (handle_console_message au_only_bid_parse scenario_b_state0
        ("AUCTION_UPDATE:" ++ "\x7b\"current_bid\":\"$500\"\x7d") "t1").1.current_auction_data
        = some d' ∧
      dictFind d' "current_bidder" = dictFind (initial_auction_data "t0") "current_bidder") ∧
    (∃ d', (handle_console_message scenario_b_parse scenario_b_state0
        ("BID_CHANGE:" ++ "\x7b\"bidder\":\"CA-123\"\x7d") "t1").1.current_auction_data
        = some d' ∧
      dictFind d' "current_bid" = some (FieldVal.str "N/A") ∧
      dictFind d' "lot_title" = dictFind (initial_auction_data "t0") "lot_title") :=
  ⟨c1_merge_fieldwise_amended.1 au_only_bid_parse scenario_b_state0 (initial_auction_data "t0")
      [("current_bid", JVal.s "$500")] ("AUCTION_UPDATE:" ++ "\x7b\"current_bid\":\"$500\"\x7d")
      "t1" "current_bidder" (by decide) (by decide) (by decide) rfl (by decide),
   c1_merge_fieldwise_amended.2 scenario_b_parse scenario_b_state0 (initial_auction_data "t0")
      [("bidder", JVal.s "CA-123")] ("BID_CHANGE:" ++ "\x7b\"bidder\":\"CA-123\"\x7d")
      "t1" (by decide) (by decide) rfl (by decide) (by decide)⟩

/-- C4: Decoder prefix filtering with atomicity — a console line that starts
with neither BID_CHANGE: nor AUCTION_UPDATE: leaves the state unchanged and
emits nothing, and a prefixed line whose payload fails to parse likewise
leaves everything unchanged (the json.loads exception is swallowed before any
state is written). -/
theorem c4_decoder_prefix_filtering :
    ∀ (parse : String → Option JObj) (st : MonState) (text now : String),
      (pyStartsWith text "BID_CHANGE:" = false →
       pyStartsWith text "AUCTION_UPDATE:" = false →
       handle_console_message parse st text now = (st, [])) ∧
      (pyStartsWith text "BID_CHANGE:" = true →
       parse (pyDrop text 11) = Option.none →
       handle_console_message parse st text now = (st, [])) ∧
      (pyStartsWith text "BID_CHANGE:" = false →
       pyStartsWith text "AUCTION_UPDATE:" = true →
       parse (pyDrop text 15) = Option.none →
       handle_console_message parse st text now = (st, [])) := by
  intro parse st text now
  refine ⟨?_, ?_, ?_⟩
  · intro hb ha
    simp [handle_console_message, hb, ha]
  · intro hb hp
    simp [handle_console_message, hb, hp]
  · intro hb ha hp
    simp [handle_console_message, hb, ha, hp]

/-- Witness for C4: the observer's own diagnostic line, a BID_CHANGE line with
a malformed payload, and an AUCTION_UPDATE line with a malformed payload. -/
theorem c4_decoder_prefix_filtering_witness :
    handle_console_message scenario_b_parse scenario_b_state0
        "Setting up auction content observer..." "t9" = (scenario_b_state0, []) ∧
    handle_console_message null_parse scenario_b_state0
        "BID_CHANGE:not json" "t9" = (scenario_b_state0, []) ∧
    handle_console_message null_parse scenario_b_state0
        "AUCTION_UPDATE:not json" "t9" = (scenario_b_state0, []) :=
  ⟨(c4_decoder_prefix_filtering scenario_b_parse scenario_b_state0
      "Setting up auction content observer..." "t9").1 (by decide) (by decide),
   (c4_decoder_prefix_filtering null_parse scenario_b_state0
      "BID_CHANGE:not json" "t9").2.1 (by decide) rfl,
   (c4_decoder_prefix_filtering null_parse scenario_b_state0
      "AUCTION_UPDATE:not json" "t9").2.2 (by decide) (by decide) rfl⟩

/-- C9: a prefixed change message that arrives while the canonical snapshot is
still None is discarded: the AttributeError raised by the first access to the
None snapshot is swallowed, no state is written, and nothing is emitted. -/
theorem c9_push_before_initial_snapshot :
    ∀ (parse : String → Option JObj) (st : MonState) (text now : String),
      st.current_auction_data = Option.none →
      handle_console_message parse st text now = (st, []) := by
  intro parse st text now h
  unfold handle_console_message
  split
  · cases parse (pyDrop text 11) with
    | none => rfl
    | some bd => simp [h]
  · split
    · cases parse (pyDrop text 15) with
      | none => rfl
      | some ad => simp [h]
    · rfl

/-- Witness for C9: a well-formed BID_CHANGE message delivered before the
initial extraction populated the snapshot. -/
theorem c9_push_before_initial_snapshot_witness :
    handle_console_message scenario_b_parse
        { is_monitoring := true, hasSocketio := true,
          current_auction_data := Option.none, last_update := Option.none }
        ("BID_CHANGE:" ++ "\x7b\"bid\":\"$1,300\"\x7d") "t1"
      = ({ is_monitoring := true, hasSocketio := true,
           current_auction_data := Option.none, last_update := Option.none }, []) :=
  c9_push_before_initial_snapshot scenario_b_parse _ _ "t1" rfl

/-- C5 counterexample: with a cached bid and a mutation batch whose derived
bid is null (a tracked field differing from the cached value), the Copart
observer callback emits no tagged line — the emission is not an iff over all
tracked fields. -/
theorem c5_self_diffing_counterexample :
    ((observer_mutation_callback
        { lastBid := some "$100", lastBidder := some "A", mutationCount := 0 }
        (some { bid := Option.none, bidder := some "A", bidSuggestion := Option.none,
                lotTitle := Option.none, lotNumber := Option.none,
                timestamp := "t" })).2.countP ObsLine.tagged = 0) ∧
    (Option.none : Option String) ≠ some "$100" := by decide

/-- C5 amended: the Copart observer callback emits exactly one prefix-tagged
line on a batch iff the derived bid and bidder are both truthy and at least
one of the pair (bid, bidder) differs from the script-local cache; fields
other than bid and bidder are never diffed, and a batch with no derived info
(auction root absent) emits no tagged line. -/
theorem c5_self_diffing_amended :
    (∀ (st : ObserverCache) (info : BidInfo),
       (observer_mutation_callback st (some info)).2.countP ObsLine.tagged
         = (if jsTruthy info.bid = true ∧ jsTruthy info.bidder = true ∧
               (info.bid ≠ st.lastBid ∨ info.bidder ≠ st.lastBidder)
            then 1 else 0)) ∧
    (∀ st : ObserverCache,
       (observer_mutation_callback st Option.none).2.countP ObsLine.tagged = 0) := by
  constructor
  · intro st info
    unfold observer_mutation_callback
    by_cases h1 : jsTruthy info.bid = true <;> by_cases h2 : jsTruthy info.bidder = true <;>
      by_cases h3 : info.bid ≠ st.lastBid ∨ info.bidder ≠ st.lastBidder <;>
      simp [h1, h2, h3, ObsLine.tagged, List.countP, List.countP.go]
  · intro st
    rfl

/-- C6 counterexample: the IAAI monitoring loop performs no recovery on a
destroyed-context extraction error — it re-runs neither navigation nor
observer injection, leaving the state untouched. -/
theorem c6_context_destroyed_recovery_counterexample :
    iaai_health_check_step
        { is_monitoring := true, current_auction_data := Option.none,
          last_update := Option.none, page_url := "https://www.iaai.com/LiveAuction",
          recoveryCalls := [] }
        (Except.error "Execution context was destroyed, most likely because of a navigation")
        "t1"
      = { is_monitoring := true, current_auction_data := Option.none,
          last_update := Option.none, page_url := "https://www.iaai.com/LiveAuction",
          recoveryCalls := [] } := rfl

/-- C6 amended: in the Copart loop, a destroyed-context extraction error
leaves the monitoring flag and snapshot untouched and re-runs navigation to
the current page URL followed by observer injection, and a scripted run with
one destroyed error followed by one successful extraction ends still
monitoring with the fresh snapshot installed; the IAAI loop only logs such
errors (see the counterexample) and recovers only through the next health
check. -/
theorem c6_context_destroyed_recovery_amended :
    (∀ (st : LoopState) (m now : String),
       st.is_monitoring = true →
       pyContains (pyLower m) "destroyed" = true →
       health_check_step st (Except.error m) now
         = { st with recoveryCalls := st.recoveryCalls
             ++ [DriverAction.navigate st.page_url, DriverAction.setupObserver] }) ∧
    (∀ (st : LoopState) (m : String) (d : Snapshot) (n1 n2 : String),
       st.is_monitoring = true →
       pyContains (pyLower m) "destroyed" = true →
       (run_health_checks st [(Except.error m, n1), (Except.ok d, n2)]).is_monitoring
         = true ∧
       (run_health_checks st [(Except.error m, n1), (Except.ok d, n2)]).current_auction_data
         = some d) := by
  constructor
  · intro st m now hm hd
    simp [health_check_step, hd]
  · intro st m d n1 n2 hm hd
    simp [run_health_checks, health_check_step, hd, hm]

/-- Witness for C6 amended at a concrete state and the Playwright
destroyed-context error message. -/
theorem c6_context_destroyed_recovery_witness :
    health_check_step
        { is_monitoring := true, current_auction_data := Option.none,
          last_update := Option.none,
          page_url := "https://www.copart.com/auctionDashboard", recoveryCalls := [] }
        (Except.error "Execution context was destroyed, most likely because of a navigation")
        "t1"
      = { is_monitoring := true, current_auction_data := Option.none,
          last_update := Option.none,
          page_url := "https://www.copart.com/auctionDashboard",
          recoveryCalls := [DriverAction.navigate "https://www.copart.com/auctionDashboard",
                            DriverAction.setupObserver] } ∧
    (run_health_checks
        { is_monitoring := true, current_auction_data := Option.none,
          last_update := Option.none,
          page_url := "https://www.copart.com/auctionDashboard", recoveryCalls := [] }
        [(Except.error "Execution context was destroyed, most likely because of a navigation",
          "t1"),
         (Except.ok (initial_auction_data "t2"), "t2")]).current_auction_data
      = some (initial_auction_data "t2") :=
  ⟨c6_context_destroyed_recovery_amended.1 _ _ "t1" rfl (by decide),
   (c6_context_destroyed_recovery_amended.2 _ _ _ "t1" "t2" rfl (by decide)).2⟩

/-- C7: Idempotent stop — stopping twice yields the same session state as
stopping once; the embedded stop is a total function of the session state and
of every cleanup-evaluation outcome (the Python try/except swallows cleanup
failures), and it always returns the state with the monitoring flag cleared
and everything else untouched, with the same cleanup-attempt decision on a
repeated call. -/
theorem c7_idempotent_stop :
    ∀ (st : SessionState) (r1 r2 : EvalOutcome),
      (stop_monitoring (stop_monitoring st r1).1 r2).1 = (stop_monitoring st r1).1 ∧
      (stop_monitoring st r1).1.is_monitoring = false ∧
      (stop_monitoring st r1).1 = { st with is_monitoring := false } ∧
      (stop_monitoring (stop_monitoring st r1).1 r2).2 = (stop_monitoring st r1).2 :=
  fun _ _ _ => ⟨rfl, rfl, rfl, rfl⟩

/-- C8 counterexample: the push-change auction_update payload has a different
key set from the initial-load payload — it lacks the initial_load key (and
carries extra flattened keys). -/
theorem c8_uniform_schema_counterexample :
    (bid_change_auction_update_msg true [] "t" (FieldVal.str "a") (FieldVal.str "1")
        (FieldVal.str "N/A")).map Prod.fst ≠
      (initial_auction_update_msg true [] "t").map Prod.fst ∧
    "initial_load" ∉ (bid_change_auction_update_msg true [] "t" (FieldVal.str "a")
        (FieldVal.str "1") (FieldVal.str "N/A")).map Prod.fst := by decide

/-- C8 amended: both event kinds carry is_monitoring, the full snapshot under
current_auction, last_update and the content_change boolean (false on initial
load, true on a push change); but only the initial message carries
initial_load, and the change messages append extra flattened fields, so the
two kinds differ in key sets, not merely in boolean values. -/
theorem c8_broadcast_schema_amended :
    ∀ (b : Bool) (snap : Snapshot) (lu : String) (x y z w : FieldVal),
      (initial_auction_update_msg b snap lu).map Prod.fst
        = ["is_monitoring", "current_auction", "last_update", "content_change",
           "initial_load"] ∧
      (bid_change_auction_update_msg b snap lu x y z).map Prod.fst
        = ["is_monitoring", "current_auction", "last_update", "content_change",
           "lot_title", "lot_number", "bid_suggestion"] ∧
      (iaai_bid_change_auction_update_msg b snap lu x y z w).map Prod.fst
        = ["is_monitoring", "current_auction", "last_update", "content_change",
           "current_item", "stock_number", "asking_bid", "bid_status"] ∧
      (initial_auction_update_msg b snap lu).get? 3
        = some ("content_change", PyVal.bool false) ∧
      (initial_auction_update_msg b snap lu).get? 4
        = some ("initial_load", PyVal.bool true) ∧
      (bid_change_auction_update_msg b snap lu x y z).get? 3
        = some ("content_change", PyVal.bool true) :=
  fun _ _ _ _ _ _ _ => ⟨rfl, rfl, rfl, rfl, rfl, rfl⟩
